/-
Verification of the Photo-Gallery client logic.

The repository contains two variants of the same client component:
  * a local-mode variant (photo-gallery-web/app/components/PhotoApp.tsx) that keeps
    the photo list in memory, persists it to browser local storage on every change
    and validates uploads (media type, 4 MiB size cap, 30-entry cap);
  * a server-mode variant (the unnamed source file) that treats an HTTP collection
    endpoint as the source of truth and reconciles by full re-fetch after uploads.

This file gives a shallow embedding of both variants and proves the testable
properties of the specification against it.  Browser and platform primitives
(FileReader, crypto.randomUUID, Date.now, fetch, JSON.parse/stringify) are made
explicit: nondeterministic inputs (fresh identifiers, timestamps, HTTP responses)
become extra parameters, and JSON text is modelled at the level of parsed JSON
values, string printing/parsing of the JSON grammar being the platform's inverse
pair.  JavaScript numbers are modelled as rationals plus non-finite markers; the
one numeric routine (formatBytes) only divides by 1024, which is exact for the
binary floating point values reaching it from the guarded loop, and its toFixed
calls include the ECMAScript fallback to ToString's exponential notation at
magnitudes of 10^21 and above.
-/
import Mathlib

/-! ## JSON values (result of JSON.parse / argument of JSON.stringify) -/

/-- A parsed JSON value. -/
inductive Json where
  | null : Json
  | bool : Bool → Json
  | num : ℚ → Json
  | str : String → Json
  | arr : List Json → Json
  | obj : List (String × Json) → Json

/-! ## JavaScript numbers and the byte-size formatter -/

/-- A JavaScript number: a finite value, or one of the non-finite values. -/
inductive JSNum where
  | finite : ℚ → JSNum
  | nan : JSNum
  | inf : JSNum
  | negInf : JSNum

/-- Number.isFinite. -/
def JSNum.isFinite : JSNum → Bool
  | .finite _ => true
  | _ => false

/-- String.prototype.startsWith, on the underlying character lists. -/
def startsWithStr (s p : String) : Bool := p.data.isPrefixOf s.data

/-- The units array of formatBytes: ["B", "KB", "MB", "GB"]. -/
def unitsOf (i : Nat) : String := ["B", "KB", "MB", "GB"].getD i ""

/-- The while loop of formatBytes: while (v >= 1024 && i < units.length - 1)
divide v by 1024 and bump i.  The guard i < 3 bounds the iteration count by 3,
so running with fuel 3 from i = 0 is exact. -/
def fbGo (v : ℚ) (i : Nat) : Nat → ℚ × Nat
  | 0 => (v, i)
  | fuel + 1 => if 1024 ≤ v ∧ i < 3 then fbGo (v / 1024) (i + 1) fuel else (v, i)

/-- Floor of a rational, computably. -/
def qFloor (q : ℚ) : Int := Int.fdiv q.num q.den

/-- Rounding as Number.prototype.toFixed does on a tie: the larger candidate. -/
def jsRound (q : ℚ) : Int := qFloor (q + 1 / 2)

/-- Exponential-notation rendering of a natural, as Number::toString produces
for large magnitudes: significant digits with trailing zeros stripped, the
leading digit, a point and the remaining digits when there are any, and "e+"
with the decimal exponent. -/
def expNotation (m : Nat) : String :=
  let ds := (toString m).data
  let sig := (ds.reverse.dropWhile (fun c => c == '0')).reverse
  let e := ds.length - 1
  match sig with
  | [] => "0"
  | [c] => String.mk [c] ++ "e+" ++ toString e
  | c :: rest => String.mk [c] ++ "." ++ String.mk rest ++ "e+" ++ toString e

/-- Number::toString at the magnitudes where toFixed delegates to it (at least
10^21): sign plus exponential notation of the integer magnitude.  Every double
of such magnitude is an integer, and the rational model renders its exact
digits — shortest-round-trip digit selection lies below the model's
resolution. -/
def jsToString (q : ℚ) : String :=
  (if q < 0 then "-" else "") ++ expNotation (qFloor |q|).natAbs

/-- toFixed(0): ToString's exponential notation for magnitudes of 10^21 and
above, otherwise an integer rendering with no decimal point. -/
def toFixed0 (q : ℚ) : String :=
  if 10 ^ 21 ≤ |q| then jsToString q else toString (jsRound q)

/-- toFixed(1): ToString's exponential notation for magnitudes of 10^21 and
above, otherwise sign, integer part, a decimal point and exactly one digit. -/
def toFixed1 (q : ℚ) : String :=
  if 10 ^ 21 ≤ |q| then jsToString q
  else
    let m : Int := jsRound (q * 10)
    (if m < 0 then "-" else "") ++ toString (m.natAbs / 10) ++ "." ++ toString (m.natAbs % 10)

/-- v.toFixed(digits) for the two digit counts formatBytes uses. -/
def toFixedQ (q : ℚ) (digits : Nat) : String :=
  if digits = 0 then toFixed0 q else toFixed1 q

/-- formatBytes, shared verbatim by both variants: "" on a non-finite input,
otherwise divide by 1024 at most three times and render with the chosen unit,
zero decimals for "B" and one decimal otherwise. -/
def formatBytes : JSNum → String
  | JSNum.finite b =>
      let vi := fbGo b 0 3
      toFixedQ vi.1 (if vi.2 = 0 then 0 else 1) ++ " " ++ unitsOf vi.2
  | _ => ""

/-! ## Local-mode data model (PhotoApp.tsx) -/

/-- The localStorage key of the local-mode gallery. -/
def STORAGE_KEY : String := "photo_gallery_v1"

/-- MAX_STORED_IMAGES = 30. -/
def MAX_STORED_IMAGES : Nat := 30

/-- MAX_IMAGE_BYTES = 4 * 1024 * 1024 (4 MiB). -/
def MAX_IMAGE_BYTES : Nat := 4 * 1024 * 1024

/-- A stored photo record of the local-mode variant. -/
structure PhotoItem where
  id : String
  name : String
  type : String
  size : Nat
  createdAt : Nat
  dataUrl : String
deriving DecidableEq

/-- A browser File as the component reads it: declared name, declared media
type, byte size, and the data URL FileReader would produce from its bytes. -/
structure JSFile where
  name : String
  type : String
  size : Nat
  dataUrl : String
deriving DecidableEq

/-- The component state of the local-mode variant, together with the persisted
storage entry (a parsed JSON value, or none when the entry is absent). -/
structure LocalState where
  photos : List PhotoItem
  activeId : Option String
  error : Option String
  storage : Option Json

/-! ### Local persistence (the two useEffect hooks) -/

/-- Decoding a rational JSON number back to the natural it was written from. -/
def qToNat? (q : ℚ) : Option Nat :=
  if q.den = 1 ∧ 0 ≤ q.num then some q.num.toNat else none

/-- JSON.stringify of one photo record. -/
def photoToJson (p : PhotoItem) : Json :=
  Json.obj [("id", Json.str p.id), ("name", Json.str p.name), ("type", Json.str p.type),
            ("size", Json.num (p.size : ℚ)), ("createdAt", Json.num (p.createdAt : ℚ)),
            ("dataUrl", Json.str p.dataUrl)]

/-- Reading one parsed JSON value back as a photo record. -/
def photoOfJson : Json → Option PhotoItem
  | Json.obj [(k1, Json.str i), (k2, Json.str n), (k3, Json.str t),
              (k4, Json.num sz), (k5, Json.num c), (k6, Json.str d)] =>
      if k1 = "id" ∧ k2 = "name" ∧ k3 = "type" ∧ k4 = "size" ∧
         k5 = "createdAt" ∧ k6 = "dataUrl" then
        match qToNat? sz, qToNat? c with
        | some szn, some cn =>
            some { id := i, name := n, type := t, size := szn, createdAt := cn, dataUrl := d }
        | _, _ => none
      else none
  | _ => none

/-- Reading the elements of a parsed JSON array back as photo records. -/
def decodePhotos : List Json → Option (List PhotoItem)
  | [] => some []
  | j :: rest =>
      match photoOfJson j, decodePhotos rest with
      | some p, some ps => some (p :: ps)
      | _, _ => none

/-- JSON.stringify(photos), at the level of parsed JSON values. -/
def savePhotos (ps : List PhotoItem) : Json := Json.arr (ps.map photoToJson)

/-- The load effect: read the storage entry; an absent entry, a parse failure or
a non-array value leaves the initial empty list; an array is taken as the photo
list (the component installs the parsed array without further validation). -/
def loadStorage : Option Json → List PhotoItem
  | some (Json.arr xs) => (decodePhotos xs).getD []
  | _ => []

/-- The save effect: serialize the current list under the fixed key. -/
def saveEffect (s : LocalState) : LocalState :=
  { s with storage := some (savePhotos s.photos) }

/-! ### Local-mode operations -/

/-- The body of the for-loop of addFiles: one new record per accepted file,
in input order, with fresh identifiers and timestamps supplied positionally. -/
def buildNext (files : List JSFile) (ids : List String) (times : List Nat) : List PhotoItem :=
  (files.zip (ids.zip times)).map fun ft =>
    { id := ft.2.1, name := ft.1.name, type := ft.1.type, size := ft.1.size,
      createdAt := ft.2.2, dataUrl := ft.1.dataUrl }

/-- addFiles (local mode): clear the error, keep only files whose declared type
starts with "image/", reject an empty result, reject the batch when some
accepted file exceeds MAX_IMAGE_BYTES, otherwise prepend the new records and
truncate to MAX_STORED_IMAGES; a single added file becomes the active photo. -/
def addFiles (s : LocalState) (fileList : List JSFile) (ids : List String)
    (times : List Nat) : LocalState :=
  let s0 : LocalState := { s with error := none }
  let files := fileList.filter (fun f => startsWithStr f.type "image/")
  if files.length = 0 then
    { s0 with error := some "Please select an image file (JPG/PNG/WebP/GIF)." }
  else
    match files.find? (fun f => decide (MAX_IMAGE_BYTES < f.size)) with
    | some tooBig =>
        { s0 with error := some ("One file is too large (" ++ tooBig.name ++ ", "
            ++ formatBytes (JSNum.finite (tooBig.size : ℚ)) ++ "). Max "
            ++ formatBytes (JSNum.finite (MAX_IMAGE_BYTES : ℚ)) ++ ".") }
    | none =>
        let next := buildNext files ids times
        let newPhotos := (next ++ s0.photos).take MAX_STORED_IMAGES
        { s0 with photos := newPhotos,
                  activeId := match next with
                    | [r] => some r.id
                    | _ => s0.activeId }

/-- removePhoto (local mode): filter the identifier out; clear the active
selection when it pointed at it.  The error state is not touched. -/
def removePhoto (s : LocalState) (id : String) : LocalState :=
  { s with photos := s.photos.filter (fun p => decide (p.id ≠ id)),
           activeId := if s.activeId = some id then none else s.activeId }

/-- clearAll (local mode): empty the list, clear the selection, remove the
storage entry.  The error state is not touched. -/
def clearAll (s : LocalState) : LocalState :=
  { s with photos := [], activeId := none, storage := none }

/-! ## Server-mode data model (the unnamed variant) -/

/-- The server-mode size cap: 4 * 1024 * 1024 * 1024 (4 GiB). -/
def SERVER_MAX_IMAGE_BYTES : Nat := 4 * 1024 * 1024 * 1024

/-- A photo record as served by the collection endpoint. -/
structure ServerPhoto where
  id : Int
  name : String
  created_at : String
  image_url : String
  thumb_url : String
deriving DecidableEq

/-- An HTTP response as the component observes it: res.ok, res.status, and the
response body text. -/
structure HttpResponse where
  ok : Bool
  status : Nat
  body : String
deriving DecidableEq

/-- The component state of the server-mode variant. -/
structure ServerState where
  photos : List ServerPhoto
  activeId : Option Int
  error : Option String
  busy : Bool

/-- loadPhotos: clear the error and fetch the list; on a success response
install the parsed data, otherwise set a load error with the status. -/
def loadPhotos (s : ServerState) (resp : HttpResponse) (data : List ServerPhoto) :
    ServerState :=
  let s0 := { s with error := none }
  if resp.ok then { s0 with photos := data }
  else { s0 with error := some ("Failed to load (" ++ toString resp.status ++ ")") }

/-- uploadFiles: clear the error, validate as in local mode (server-mode size
cap), then POST the batch; a non-success response sets an upload error with the
status and body and leaves the list alone; a success response re-fetches the
whole list; the busy flag is released on both paths. -/
def uploadFiles (s : ServerState) (fileList : List JSFile) (resp : HttpResponse)
    (loadResp : HttpResponse) (loadData : List ServerPhoto) : ServerState :=
  let s0 := { s with error := none }
  let files := fileList.filter (fun f => startsWithStr f.type "image/")
  if files.length = 0 then
    { s0 with error := some "Please select an image file (JPG/PNG/WebP/GIF)." }
  else
    match files.find? (fun f => decide (SERVER_MAX_IMAGE_BYTES < f.size)) with
    | some tooBig =>
        { s0 with error := some ("File too large: " ++ tooBig.name ++ " ("
            ++ formatBytes (JSNum.finite (tooBig.size : ℚ)) ++ "). Max "
            ++ formatBytes (JSNum.finite (SERVER_MAX_IMAGE_BYTES : ℚ)) ++ ".") }
    | none =>
        let s1 := { s0 with busy := true }
        if resp.ok then
          { loadPhotos s1 loadResp loadData with busy := false }
        else
          { s1 with busy := false,
                    error := some ("Upload failed (" ++ toString resp.status ++ "): "
                      ++ resp.body) }

/-- deletePhoto: clear the error, DELETE the identifier; a response that is
neither ok nor status 204 sets a delete error and leaves the list alone;
otherwise filter the record out and clear a matching active selection. -/
def deletePhoto (s : ServerState) (id : Int) (resp : HttpResponse) : ServerState :=
  let s1 := { s with error := none, busy := true }
  if resp.ok = false ∧ resp.status ≠ 204 then
    { s1 with error := some ("Delete failed (" ++ toString resp.status ++ ")"),
              busy := false }
  else
    { s1 with photos := s1.photos.filter (fun p => decide (p.id ≠ id)),
              activeId := if s1.activeId = some id then none else s1.activeId,
              busy := false }

/-! ## Concrete data for witnesses and counterexamples -/

/-- A stored photo record. -/
def pA : PhotoItem :=
  { id := "a", name := "a.png", type := "image/png", size := 3, createdAt := 1,
    dataUrl := "data:a" }

/-- A small valid image file. -/
def fOk : JSFile :=
  { name := "new.png", type := "image/png", size := 10, dataUrl := "data:new" }

/-- An image file one byte over the local-mode cap. -/
def fBig : JSFile :=
  { name := "big.png", type := "image/png", size := 4194305, dataUrl := "data:big" }

/-- A local state holding one photo and no error. -/
def demoLocal : LocalState :=
  { photos := [pA], activeId := none, error := none, storage := none }

/-- A local state carrying a leftover error message. -/
def demoLocalErr : LocalState :=
  { photos := [pA], activeId := none, error := some "previous failure", storage := none }

/-- A stored list of 31 photo records, one over the cap. -/
def photo31 : List PhotoItem :=
  (List.range 31).map fun n =>
    { id := toString n, name := "p", type := "image/png", size := 0, createdAt := 0,
      dataUrl := "" }

/-- A server-side photo record. -/
def sp1 : ServerPhoto :=
  { id := 1, name := "one", created_at := "t1", image_url := "u1", thumb_url := "v1" }

/-- A second server-side photo record. -/
def sp2 : ServerPhoto :=
  { id := 2, name := "two", created_at := "t2", image_url := "u2", thumb_url := "v2" }

/-- A server state holding two photos, the first being active. -/
def demoServer : ServerState :=
  { photos := [sp1, sp2], activeId := some 1, error := none, busy := false }

/-- A failing HTTP response. -/
def respFail : HttpResponse := { ok := false, status := 500, body := "boom" }

/-- A no-content HTTP response (ok is false, status 204). -/
def resp204 : HttpResponse := { ok := false, status := 204, body := "" }

/-- A successful HTTP response. -/
def respOk : HttpResponse := { ok := true, status := 200, body := "" }

/-! ## Helper lemmas -/

/-- Encoding a natural as a JSON number and decoding it is the identity. -/
theorem qToNat?_natCast (n : Nat) : qToNat? (n : ℚ) = some n := by
  simp [qToNat?]

/-- Decoding an encoded photo record is the identity. -/
theorem photoOfJson_photoToJson (p : PhotoItem) : photoOfJson (photoToJson p) = some p := by
  simp [photoToJson, photoOfJson, qToNat?_natCast]

/-- Decoding an encoded photo list is the identity. -/
theorem decodePhotos_map (ps : List PhotoItem) :
    decodePhotos (ps.map photoToJson) = some ps := by
  induction ps with
  | nil => rfl
  | cons p ps ih => simp [decodePhotos, photoOfJson_photoToJson, ih]

/-- The load effect is a left inverse of JSON.stringify on photo lists. -/
theorem loadStorage_savePhotos (ps : List PhotoItem) :
    loadStorage (some (savePhotos ps)) = ps := by
  simp [loadStorage, savePhotos, decodePhotos_map]

/-- Filtering twice with one predicate equals filtering once. -/
theorem filter_self_idem {α : Type} (p : α → Bool) (l : List α) :
    (l.filter p).filter p = l.filter p := by
  induction l with
  | nil => rfl
  | cons a l ih =>
    by_cases h : p a = true
    · simp [List.filter_cons, h, ih]
    · simp [List.filter_cons, h, ih]

/-! ## Claim theorems -/

/-- Claim C5: local-mode persistence round-trip — serializing the current
sequence to the persisted storage entry (as the save effect does after every
change) and re-initializing from that storage yields the same sequence, with
the same identifiers, names, payloads and order. -/
theorem persistence_round_trip (s : LocalState) :
    loadStorage (saveEffect s).storage = s.photos := by
  simp [saveEffect, loadStorage_savePhotos]

/-- Claim C8: clearAll in local mode empties the sequence, clears the active
selection, erases the persisted storage entry, and a fresh initialize from
that storage yields an empty sequence. -/
theorem clearAll_spec (s : LocalState) :
    (clearAll s).photos = [] ∧ (clearAll s).activeId = none ∧
    (clearAll s).storage = none ∧ loadStorage (clearAll s).storage = [] :=
  ⟨rfl, rfl, rfl, rfl⟩

/-- Claim C9: removePhoto in local mode is idempotent and total — a second
removal of the same identifier is a no-op, and the operation never produces an
error (the error state is untouched), also when the identifier is absent. -/
theorem removePhoto_idempotent (s : LocalState) (id : String) :
    removePhoto (removePhoto s id) id = removePhoto s id ∧
    (removePhoto s id).error = s.error := by
  constructor
  · obtain ⟨p, a, e, st⟩ := s
    simp only [removePhoto, LocalState.mk.injEq, filter_self_idem, true_and, and_true]
    by_cases h : a = some id <;> simp [h]
  · rfl

/-- Claim C3, counterexample: the load effect installs any parsed array as-is,
so a persisted storage entry holding 31 records initializes to a sequence of
31 entries — longer than the configured maximum of 30.  The cap is enforced by
addFiles only, not re-validated on load. -/
theorem load_overfull_storage :
    MAX_STORED_IMAGES < (loadStorage (some (savePhotos photo31))).length := by
  rw [loadStorage_savePhotos]
  simp [photo31, MAX_STORED_IMAGES]

/-- Claim C3 (amended): every local-mode operation other than Initialize
preserves the 30-entry bound (Add truncates to 30, Remove shrinks, ClearAll
empties), and Initialize is bounded by 30 on storage written by the app's own
save path for an in-bound sequence; Initialize performs no re-validation, so
arbitrary storage contents are loaded at their own length. -/
theorem capacity_invariant :
    (∀ (s : LocalState) (files : List JSFile) (ids : List String) (times : List Nat),
        s.photos.length ≤ MAX_STORED_IMAGES →
        (addFiles s files ids times).photos.length ≤ MAX_STORED_IMAGES) ∧
    (∀ (s : LocalState) (id : String), s.photos.length ≤ MAX_STORED_IMAGES →
        (removePhoto s id).photos.length ≤ MAX_STORED_IMAGES) ∧
    (∀ s : LocalState, (clearAll s).photos.length = 0) ∧
    (∀ ps : List PhotoItem, ps.length ≤ MAX_STORED_IMAGES →
        (loadStorage (some (savePhotos ps))).length ≤ MAX_STORED_IMAGES) := by
  refine ⟨?_, ?_, fun s => rfl, ?_⟩
  · intro s files ids times h
    simp only [addFiles]
    split
    · exact h
    · split
      · exact h
      · simp [List.length_take]
  · intro s id h
    exact le_trans (List.length_filter_le _ _) h
  · intro ps h
    rw [loadStorage_savePhotos]; exact h

/-- Witness for the amended capacity invariant at concrete inputs. -/
theorem capacity_invariant_witness :
    (addFiles demoLocal [fOk] ["u9"] [3]).photos.length ≤ MAX_STORED_IMAGES ∧
    (clearAll demoLocal).photos.length = 0 :=
  ⟨capacity_invariant.1 demoLocal [fOk] ["u9"] [3] (by decide),
   capacity_invariant.2.2.1 demoLocal⟩

/-- Claim C1: for a valid non-empty all-image batch within the size cap,
addFiles in local mode prepends the new records (in input order) to the
previous sequence and truncates to 30: the resulting length is
min(previousLength + batchSize, 30), the leading entries are the new records
(all of them, or the first 30 when the batch itself overflows), and what
remains of the previous sequence is its prefix — truncation discards the
oldest (tail) entries. -/
theorem addFiles_valid_batch (s : LocalState) (files : List JSFile) (ids : List String)
    (times : List Nat)
    (hne : files ≠ [])
    (himg : ∀ f ∈ files, startsWithStr f.type "image/" = true)
    (hsz : ∀ f ∈ files, f.size ≤ MAX_IMAGE_BYTES)
    (hids : ids.length = files.length) (htimes : times.length = files.length) :
    (addFiles s files ids times).photos
        = (buildNext files ids times ++ s.photos).take MAX_STORED_IMAGES ∧
    (addFiles s files ids times).photos.length
        = min (s.photos.length + files.length) MAX_STORED_IMAGES ∧
    (addFiles s files ids times).photos.take files.length
        = (buildNext files ids times).take MAX_STORED_IMAGES ∧
    (addFiles s files ids times).photos
        = (buildNext files ids times).take MAX_STORED_IMAGES
          ++ s.photos.take (MAX_STORED_IMAGES - files.length) := by
  have hfilter : files.filter (fun f => startsWithStr f.type "image/") = files :=
    List.filter_eq_self.mpr himg
  have hlen0 : files.length ≠ 0 := by
    cases files with
    | nil => exact absurd rfl hne
    | cons a l => simp
  have hfind : files.find? (fun f => decide (MAX_IMAGE_BYTES < f.size)) = none :=
    List.find?_eq_none.mpr (by intro x hx; simpa using Nat.not_lt.mpr (hsz x hx))
  have hnext : (buildNext files ids times).length = files.length := by
    simp [buildNext, hids, htimes]
  have hmain : (addFiles s files ids times).photos
      = (buildNext files ids times ++ s.photos).take MAX_STORED_IMAGES := by
    simp only [addFiles, hfilter, hfind]
    rw [if_neg hlen0]
  refine ⟨hmain, ?_, ?_, ?_⟩
  · rw [hmain]
    simp only [List.length_take, List.length_append, hnext]
    omega
  · rw [hmain, List.take_take, List.take_append_eq_append_take, hnext]
    have hz : min files.length MAX_STORED_IMAGES - files.length = 0 := by omega
    rw [hz, List.take_zero, List.append_nil, List.take_eq_take, hnext]
    omega
  · rw [hmain, List.take_append_eq_append_take, hnext]

/-- Witness for the valid-batch addFiles theorem at a concrete one-file batch. -/
theorem addFiles_valid_batch_witness :
    (addFiles demoLocal [fOk] ["u1"] [9]).photos
        = (buildNext [fOk] ["u1"] [9] ++ demoLocal.photos).take MAX_STORED_IMAGES ∧
    (addFiles demoLocal [fOk] ["u1"] [9]).photos.length
        = min (demoLocal.photos.length + [fOk].length) MAX_STORED_IMAGES ∧
    (addFiles demoLocal [fOk] ["u1"] [9]).photos.take [fOk].length
        = (buildNext [fOk] ["u1"] [9]).take MAX_STORED_IMAGES ∧
    (addFiles demoLocal [fOk] ["u1"] [9]).photos
        = (buildNext [fOk] ["u1"] [9]).take MAX_STORED_IMAGES
          ++ demoLocal.photos.take (MAX_STORED_IMAGES - [fOk].length) :=
  addFiles_valid_batch demoLocal [fOk] ["u1"] [9] (by decide) (by decide) (by decide)
    rfl rfl

/-- Claim C2: a local-mode batch whose accepted image files include one over
the 4 MiB cap mutates nothing (all-or-nothing) and produces a validation error
naming the first offending file and its formatted size. -/
theorem addFiles_oversize_rejected (s : LocalState) (files : List JSFile)
    (ids : List String) (times : List Nat)
    (h : ∃ f ∈ files.filter (fun f => startsWithStr f.type "image/"),
          MAX_IMAGE_BYTES < f.size) :
    (addFiles s files ids times).photos = s.photos ∧
    (addFiles s files ids times).activeId = s.activeId ∧
    (addFiles s files ids times).storage = s.storage ∧
    ∃ tooBig,
      (files.filter (fun f => startsWithStr f.type "image/")).find?
          (fun f => decide (MAX_IMAGE_BYTES < f.size)) = some tooBig ∧
      MAX_IMAGE_BYTES < tooBig.size ∧
      (addFiles s files ids times).error
        = some ("One file is too large (" ++ tooBig.name ++ ", "
            ++ formatBytes (JSNum.finite (tooBig.size : ℚ)) ++ "). Max "
            ++ formatBytes (JSNum.finite (MAX_IMAGE_BYTES : ℚ)) ++ ".") := by
  obtain ⟨f, hf, hfsz⟩ := h
  have hne : (files.filter (fun f => startsWithStr f.type "image/")).length ≠ 0 := by
    intro h0
    rw [List.length_eq_zero] at h0
    rw [h0] at hf
    cases hf
  have hsome : ((files.filter (fun f => startsWithStr f.type "image/")).find?
      (fun f => decide (MAX_IMAGE_BYTES < f.size))).isSome := by
    apply List.find?_isSome.mpr
    exact ⟨f, hf, by simpa using hfsz⟩
  obtain ⟨tooBig, htb⟩ := Option.isSome_iff_exists.mp hsome
  have htbsz : MAX_IMAGE_BYTES < tooBig.size := by
    have := List.find?_some htb
    simpa using this
  refine ⟨?_, ?_, ?_, tooBig, htb, htbsz, ?_⟩ <;>
    · simp only [addFiles, htb]
      rw [if_neg hne]

/-- Witness for the oversize rejection at a concrete two-file batch. -/
theorem addFiles_oversize_rejected_witness :
    (addFiles demoLocal [fOk, fBig] ["u1", "u2"] [9, 9]).photos = [pA] ∧
    (addFiles demoLocal [fOk, fBig] ["u1", "u2"] [9, 9]).error
        = some ("One file is too large (" ++ fBig.name ++ ", "
            ++ formatBytes (JSNum.finite (fBig.size : ℚ)) ++ "). Max "
            ++ formatBytes (JSNum.finite (MAX_IMAGE_BYTES : ℚ)) ++ ".") := by
  have h := addFiles_oversize_rejected demoLocal [fOk, fBig] ["u1", "u2"] [9, 9]
    (by decide)
  obtain ⟨hp, -, -, tooBig, htb, -, herr⟩ := h
  have hconc : ([fOk, fBig].filter (fun f => startsWithStr f.type "image/")).find?
      (fun f => decide (MAX_IMAGE_BYTES < f.size)) = some fBig := by decide
  rw [hconc] at htb
  cases htb
  exact ⟨hp.trans rfl, herr⟩

/-- Claim C4, counterexample: local-mode removePhoto never touches the error
state.  Here it completes successfully — the targeted photo is removed — yet
the prior error string survives instead of being cleared. -/
theorem removePhoto_keeps_prior_error :
    (removePhoto demoLocalErr "a").photos = [] ∧
    (removePhoto demoLocalErr "a").error = some "previous failure" ∧
    (removePhoto demoLocalErr "a").error ≠ none := by
  refine ⟨by decide, rfl, by decide⟩

/-- Claim C4 (amended): every operation that can produce an error (Add in
either mode, server-mode Remove and Reload) first resets the error state, so a
new error replaces any prior one and its result is independent of the prior
error, and on success those operations leave the error cleared; local-mode
Remove and ClearAll never produce errors and leave the error state unchanged
rather than clearing it. -/
theorem error_replacement_policy :
    (∀ (s : LocalState) (files : List JSFile) (ids : List String) (times : List Nat),
        addFiles s files ids times = addFiles { s with error := none } files ids times) ∧
    (∀ (s : LocalState) (files : List JSFile) (ids : List String) (times : List Nat),
        (files.filter (fun f => startsWithStr f.type "image/")).length ≠ 0 →
        (∀ f ∈ files.filter (fun f => startsWithStr f.type "image/"),
            f.size ≤ MAX_IMAGE_BYTES) →
        (addFiles s files ids times).error = none) ∧
    (∀ (s : LocalState) (id : String), (removePhoto s id).error = s.error) ∧
    (∀ s : LocalState, (clearAll s).error = s.error) ∧
    (∀ (s : ServerState) (resp : HttpResponse) (data : List ServerPhoto),
        loadPhotos s resp data = loadPhotos { s with error := none } resp data) ∧
    (∀ (s : ServerState) (resp : HttpResponse) (data : List ServerPhoto),
        resp.ok = true → (loadPhotos s resp data).error = none) ∧
    (∀ (s : ServerState) (id : Int) (resp : HttpResponse),
        deletePhoto s id resp = deletePhoto { s with error := none } id resp) ∧
    (∀ (s : ServerState) (id : Int) (resp : HttpResponse),
        (resp.ok = true ∨ resp.status = 204) → (deletePhoto s id resp).error = none) ∧
    (∀ (s : ServerState) (files : List JSFile) (resp lr : HttpResponse)
        (ld : List ServerPhoto),
        uploadFiles s files resp lr ld = uploadFiles { s with error := none } files resp lr ld) ∧
    (∀ (s : ServerState) (files : List JSFile) (resp lr : HttpResponse)
        (ld : List ServerPhoto),
        (files.filter (fun f => startsWithStr f.type "image/")).length ≠ 0 →
        (∀ f ∈ files.filter (fun f => startsWithStr f.type "image/"),
            f.size ≤ SERVER_MAX_IMAGE_BYTES) →
        resp.ok = true → lr.ok = true →
        (uploadFiles s files resp lr ld).error = none) := by
  refine ⟨?_, ?_, fun s id => rfl, fun s => rfl, ?_, ?_, ?_, ?_, ?_, ?_⟩
  · intro s files ids times
    obtain ⟨p, a, e, st⟩ := s
    rfl
  · intro s files ids times hne hsz
    have hfind : (files.filter (fun f => startsWithStr f.type "image/")).find?
        (fun f => decide (MAX_IMAGE_BYTES < f.size)) = none :=
      List.find?_eq_none.mpr (by intro x hx; simpa using Nat.not_lt.mpr (hsz x hx))
    simp only [addFiles, hfind]
    rw [if_neg hne]
  · intro s resp data
    obtain ⟨p, a, e, b⟩ := s
    rfl
  · intro s resp data hok
    simp [loadPhotos, hok]
  · intro s id resp
    obtain ⟨p, a, e, b⟩ := s
    rfl
  · intro s id resp h
    rcases h with h | h <;> simp [deletePhoto, h]
  · intro s files resp lr ld
    obtain ⟨p, a, e, b⟩ := s
    rfl
  · intro s files resp lr ld hne hsz hok hlok
    have hfind : (files.filter (fun f => startsWithStr f.type "image/")).find?
        (fun f => decide (SERVER_MAX_IMAGE_BYTES < f.size)) = none :=
      List.find?_eq_none.mpr (by intro x hx; simpa using Nat.not_lt.mpr (hsz x hx))
    simp only [uploadFiles, hfind]
    rw [if_neg hne]
    simp [hok, loadPhotos, hlok]

/-- Witness for the amended error policy at concrete inputs. -/
theorem error_replacement_policy_witness :
    (removePhoto demoLocalErr "a").error = some "previous failure" ∧
    (deletePhoto demoServer 1 respOk).error = none := by
  have h := error_replacement_policy
  exact ⟨(h.2.2.1 demoLocalErr "a").trans rfl,
         h.2.2.2.2.2.2.2.1 demoServer 1 respOk (Or.inl rfl)⟩

/-- Claim C6: a server-mode upload whose batch passed validation but whose POST
got a non-success response leaves the local sequence and selection unchanged
and sets the error to a message carrying the response status code and the
response body text. -/
theorem uploadFiles_failure_path (s : ServerState) (files : List JSFile)
    (resp lr : HttpResponse) (ld : List ServerPhoto)
    (hne : (files.filter (fun f => startsWithStr f.type "image/")).length ≠ 0)
    (hsz : ∀ f ∈ files.filter (fun f => startsWithStr f.type "image/"),
        f.size ≤ SERVER_MAX_IMAGE_BYTES)
    (hfail : resp.ok = false) :
    (uploadFiles s files resp lr ld).photos = s.photos ∧
    (uploadFiles s files resp lr ld).activeId = s.activeId ∧
    (uploadFiles s files resp lr ld).error
        = some ("Upload failed (" ++ toString resp.status ++ "): " ++ resp.body) := by
  have hfind : (files.filter (fun f => startsWithStr f.type "image/")).find?
      (fun f => decide (SERVER_MAX_IMAGE_BYTES < f.size)) = none :=
    List.find?_eq_none.mpr (by intro x hx; simpa using Nat.not_lt.mpr (hsz x hx))
  refine ⟨?_, ?_, ?_⟩ <;>
    · simp only [uploadFiles, hfind]
      rw [if_neg hne]
      simp [hfail]

/-- Witness for the failed-upload path at a concrete batch and response. -/
theorem uploadFiles_failure_path_witness :
    (uploadFiles demoServer [fOk] respFail respOk []).photos = demoServer.photos ∧
    (uploadFiles demoServer [fOk] respFail respOk []).activeId = demoServer.activeId ∧
    (uploadFiles demoServer [fOk] respFail respOk []).error
        = some ("Upload failed (" ++ toString respFail.status ++ "): " ++ respFail.body) :=
  uploadFiles_failure_path demoServer [fOk] respFail respOk [] (by decide) (by decide) rfl

/-- Claim C7: a server-mode delete whose response is success or no-content
(204) removes exactly the records with the targeted identifier, keeps all
others in order (the result is the matching filter of the previous list, a
sublist of it), and clears the active selection exactly when it pointed at the
identifier; a failure response leaves the sequence and selection unchanged. -/
theorem deletePhoto_spec (s : ServerState) (id : Int) (resp : HttpResponse) :
    ((resp.ok = true ∨ resp.status = 204) →
      (deletePhoto s id resp).photos = s.photos.filter (fun p => decide (p.id ≠ id)) ∧
      (∀ p, p ∈ (deletePhoto s id resp).photos ↔ p ∈ s.photos ∧ p.id ≠ id) ∧
      (deletePhoto s id resp).photos.Sublist s.photos ∧
      (s.activeId = some id → (deletePhoto s id resp).activeId = none) ∧
      (s.activeId ≠ some id → (deletePhoto s id resp).activeId = s.activeId)) ∧
    (resp.ok = false ∧ resp.status ≠ 204 →
      (deletePhoto s id resp).photos = s.photos ∧
      (deletePhoto s id resp).activeId = s.activeId) := by
  constructor
  · intro h
    have hcond : ¬ (resp.ok = false ∧ resp.status ≠ 204) := by
      rcases h with h | h <;> simp [h]
    have hphotos : (deletePhoto s id resp).photos
        = s.photos.filter (fun p => decide (p.id ≠ id)) := by
      simp only [deletePhoto]
      rw [if_neg hcond]
    have hactive : (deletePhoto s id resp).activeId
        = if s.activeId = some id then none else s.activeId := by
      simp only [deletePhoto]
      rw [if_neg hcond]
    refine ⟨hphotos, ?_, ?_, ?_, ?_⟩
    · intro p
      rw [hphotos]
      simp [List.mem_filter]
    · rw [hphotos]
      exact List.filter_sublist _
    · intro ha
      rw [hactive, if_pos ha]
    · intro ha
      rw [hactive, if_neg ha]
  · intro h
    constructor <;>
      · simp only [deletePhoto]
        rw [if_pos h]

/-- Witness for the delete specification at a concrete no-content response. -/
theorem deletePhoto_spec_witness :
    (deletePhoto demoServer 1 resp204).photos = [sp2] ∧
    (deletePhoto demoServer 1 resp204).activeId = none := by
  have h := (deletePhoto_spec demoServer 1 resp204).1 (Or.inr rfl)
  exact ⟨h.1.trans (by decide), h.2.2.2.1 rfl⟩

/-- The loop index grows by at most the remaining fuel. -/
theorem fbGo_snd_le (fuel : Nat) : ∀ (v : ℚ) (i : Nat), (fbGo v i fuel).2 ≤ i + fuel := by
  induction fuel with
  | zero => intro v i; simp [fbGo]
  | succ n ih =>
      intro v i
      simp only [fbGo]
      split
      · exact le_trans (ih _ _) (by omega)
      · simp

/-- A single decimal digit renders as a one-character string. -/
theorem toString_digit_length (d : Nat) (hd : d < 10) : (toString d).length = 1 := by
  interval_cases d <;> decide

/-- One guarded unfolding of the formatter loop. -/
theorem fbGo_step (v : ℚ) (i fuel : Nat) (h1 : 1024 ≤ v) (h2 : i < 3) :
    fbGo v i (fuel + 1) = fbGo (v / 1024) (i + 1) fuel := by
  simp only [fbGo]
  rw [if_pos ⟨h1, h2⟩]

/-- First iteration of the loop run with fuel 3. -/
theorem fbGo_step3 (v : ℚ) (h : 1024 ≤ v) : fbGo v 0 3 = fbGo (v / 1024) 1 2 :=
  fbGo_step v 0 2 h (by norm_num)

/-- Second iteration of the loop run with fuel 3. -/
theorem fbGo_step2 (v : ℚ) (h : 1024 ≤ v) : fbGo v 1 2 = fbGo (v / 1024) 2 1 :=
  fbGo_step v 1 1 h (by norm_num)

/-- Third iteration of the loop run with fuel 3. -/
theorem fbGo_step1 (v : ℚ) (h : 1024 ≤ v) : fbGo v 2 1 = fbGo (v / 1024) 3 0 :=
  fbGo_step v 2 0 h (by norm_num)

/-- At the ToString threshold, toFixed(0) delegates to exponential notation. -/
theorem toFixed0_big (q : ℚ) (h : 10 ^ 21 ≤ |q|) : toFixed0 q = jsToString q := by
  simp only [toFixed0]
  rw [if_pos h]

/-- At the ToString threshold, toFixed(1) delegates to exponential notation. -/
theorem toFixed1_big (q : ℚ) (h : 10 ^ 21 ≤ |q|) : toFixed1 q = jsToString q := by
  simp only [toFixed1]
  rw [if_pos h]

/-- Below the ToString threshold, toFixed(0) is the integer rendering. -/
theorem toFixed0_small (q : ℚ) (h : ¬ 10 ^ 21 ≤ |q|) :
    toFixed0 q = toString (jsRound q) := by
  simp only [toFixed0]
  rw [if_neg h]

/-- Below the ToString threshold, toFixed(1) renders as sign, integer part,
point, one digit. -/
theorem toFixed1_shape (v : ℚ) (hsmall : ¬ 10 ^ 21 ≤ |v|) :
    ∃ (sgn : String) (m d : Nat), d < 10 ∧ (sgn = "" ∨ sgn = "-") ∧
      (toString d).length = 1 ∧
      toFixed1 v = sgn ++ toString m ++ "." ++ toString d := by
  by_cases hm : jsRound (v * 10) < 0
  · refine ⟨"-", (jsRound (v * 10)).natAbs / 10, (jsRound (v * 10)).natAbs % 10,
      Nat.mod_lt _ (by omega), Or.inr rfl,
      toString_digit_length _ (Nat.mod_lt _ (by omega)), ?_⟩
    simp only [toFixed1]
    rw [if_neg hsmall, if_pos hm]
  · refine ⟨"", (jsRound (v * 10)).natAbs / 10, (jsRound (v * 10)).natAbs % 10,
      Nat.mod_lt _ (by omega), Or.inl rfl,
      toString_digit_length _ (Nat.mod_lt _ (by omega)), ?_⟩
    simp only [toFixed1]
    rw [if_neg hsmall, if_neg hm]

/-- Claim C10, counterexample: at the finite input 2^30 · 10^21 the loop stops
at the "GB" unit with scaled value 10^21, where toFixed(1) falls back to
ToString's exponential notation: the program prints "1e+21 GB", and no
decomposition of that string into prefix, space and unit gives the claimed
integer-for-B or one-decimal prefix shape. -/
theorem formatBytes_exponential_break :
    formatBytes (JSNum.finite ((2 : ℚ) ^ 30 * 10 ^ 21)) = "1e+21 GB" ∧
    ∀ (pre u : String), (u = "B" ∨ u = "KB" ∨ u = "MB" ∨ u = "GB") →
      "1e+21 GB" = pre ++ " " ++ u →
      ¬ ((u = "B" ∧ ∃ n : Int, pre = toString n) ∨
         (u ≠ "B" ∧ ∃ (sgn : String) (m d : Nat),
            d < 10 ∧ (sgn = "" ∨ sgn = "-") ∧ (toString d).length = 1 ∧
            pre = sgn ++ toString m ++ "." ++ toString d)) := by
  constructor
  · have hgo : fbGo ((2 : ℚ) ^ 30 * 10 ^ 21) 0 3 = ((10 : ℚ) ^ 21, 3) := by
      rw [fbGo_step3 _ (by norm_num),
          show ((2 : ℚ) ^ 30 * 10 ^ 21) / 1024 = (2 : ℚ) ^ 20 * 10 ^ 21 by norm_num,
          fbGo_step2 _ (by norm_num),
          show ((2 : ℚ) ^ 20 * 10 ^ 21) / 1024 = (2 : ℚ) ^ 10 * 10 ^ 21 by norm_num,
          fbGo_step1 _ (by norm_num),
          show ((2 : ℚ) ^ 10 * 10 ^ 21) / 1024 = (10 : ℚ) ^ 21 by norm_num]
      rfl
    have hfb : formatBytes (JSNum.finite ((2 : ℚ) ^ 30 * 10 ^ 21))
        = toFixedQ (fbGo ((2 : ℚ) ^ 30 * 10 ^ 21) 0 3).1
            (if (fbGo ((2 : ℚ) ^ 30 * 10 ^ 21) 0 3).2 = 0 then 0 else 1)
          ++ " " ++ unitsOf (fbGo ((2 : ℚ) ^ 30 * 10 ^ 21) 0 3).2 := rfl
    rw [hfb, hgo]
    have hbig : (10 : ℚ) ^ 21 ≤ |(10 : ℚ) ^ 21| := by
      rw [abs_of_nonneg (by positivity)]
    show toFixed1 ((10 : ℚ) ^ 21) ++ " " ++ unitsOf 3 = "1e+21 GB"
    rw [toFixed1_big _ hbig]
    have hneg : ¬ ((10 : ℚ) ^ 21 < 0) := not_lt.mpr (by positivity)
    have habs : |(10 : ℚ) ^ 21| = ((10 ^ 21 : Nat) : ℚ) := by
      rw [abs_of_nonneg (by positivity)]
      norm_num
    simp only [jsToString]
    rw [if_neg hneg, habs]
    have hfl : qFloor ((10 ^ 21 : Nat) : ℚ) = ((10 ^ 21 : Nat) : Int) := by
      simp [qFloor, Rat.num_natCast, Rat.den_natCast]
    rw [hfl]
    rw [show (((10 ^ 21 : Nat) : Int)).natAbs = 10 ^ 21 by simp]
    decide
  · intro pre u hu hdec
    have hd : ("1e+21 GB").data = pre.data ++ " ".data ++ u.data := by
      rw [hdec]
      rfl
    rcases hu with h | h | h | h
    · subst h
      have hrev := congrArg List.reverse hd
      simp [List.reverse_append] at hrev
    · subst h
      have hrev := congrArg List.reverse hd
      simp [List.reverse_append] at hrev
    · subst h
      have hrev := congrArg List.reverse hd
      simp [List.reverse_append] at hrev
    · subst h
      have hrev := congrArg List.reverse hd
      simp [List.reverse_append] at hrev
      have hpd : pre.data = ['1', 'e', '+', '2', '1'] := by
        have h2 := congrArg List.reverse hrev
        exact ((by simpa using h2 : ['1', 'e', '+', '2', '1'] = pre.data)).symm
      rintro (⟨hB, -⟩ | ⟨-, sgn, m, d, -, -, -, hpre⟩)
      · exact absurd hB (by decide)
      · have hm : ('.' : Char) ∈ pre.data := by
          have h3 := congrArg String.data hpre
          rw [h3]
          show ('.' : Char) ∈ sgn.data ++ (toString m).data ++ ['.'] ++ (toString d).data
          simp
        rw [hpd] at hm
        simp at hm

/-- Claim C10 (amended): formatBytes is total — every non-finite input yields
the empty string; for a finite input the loop performs at most three divisions
by 1024 and the result is a prefix, a space and exactly one of the units "B",
"KB", "MB", "GB"; when the scaled value's magnitude is below 10^21 the prefix
is an integer rendering for "B" and a one-decimal rendering otherwise, while
at 10^21 and above toFixed falls back to ToString's exponential notation. -/
theorem formatBytes_total_shape (x : JSNum) :
    (x.isFinite = false → formatBytes x = "") ∧
    (∀ q : ℚ, x = JSNum.finite q →
      (fbGo q 0 3).2 ≤ 3 ∧
      ∃ u, (u = "B" ∨ u = "KB" ∨ u = "MB" ∨ u = "GB") ∧
        ∃ pre, formatBytes x = pre ++ " " ++ u ∧
          ((10 ^ 21 ≤ |(fbGo q 0 3).1| ∧ pre = jsToString (fbGo q 0 3).1) ∨
           (¬ 10 ^ 21 ≤ |(fbGo q 0 3).1| ∧
             ((u = "B" ∧ ∃ n : Int, pre = toString n) ∨
              (u ≠ "B" ∧ ∃ (sgn : String) (m d : Nat),
                 d < 10 ∧ (sgn = "" ∨ sgn = "-") ∧ (toString d).length = 1 ∧
                 pre = sgn ++ toString m ++ "." ++ toString d))))) := by
  constructor
  · intro h
    cases x <;> simp_all [JSNum.isFinite, formatBytes]
  · rintro q rfl
    have hle : (fbGo q 0 3).2 ≤ 3 := by simpa using fbGo_snd_le 3 q 0
    refine ⟨hle, ?_⟩
    have hfb : formatBytes (JSNum.finite q)
        = toFixedQ (fbGo q 0 3).1 (if (fbGo q 0 3).2 = 0 then 0 else 1)
          ++ " " ++ unitsOf (fbGo q 0 3).2 := rfl
    have h4 : (fbGo q 0 3).2 = 0 ∨ (fbGo q 0 3).2 = 1 ∨ (fbGo q 0 3).2 = 2 ∨
        (fbGo q 0 3).2 = 3 := by omega
    by_cases hbig : 10 ^ 21 ≤ |(fbGo q 0 3).1|
    · rcases h4 with h | h | h | h
      · refine ⟨"B", Or.inl rfl, jsToString (fbGo q 0 3).1, ?_, Or.inl ⟨hbig, rfl⟩⟩
        rw [hfb, h]
        show toFixed0 (fbGo q 0 3).1 ++ " " ++ unitsOf 0 = _
        rw [toFixed0_big _ hbig]
        rfl
      · refine ⟨"KB", Or.inr (Or.inl rfl), jsToString (fbGo q 0 3).1, ?_,
          Or.inl ⟨hbig, rfl⟩⟩
        rw [hfb, h]
        show toFixed1 (fbGo q 0 3).1 ++ " " ++ unitsOf 1 = _
        rw [toFixed1_big _ hbig]
        rfl
      · refine ⟨"MB", Or.inr (Or.inr (Or.inl rfl)), jsToString (fbGo q 0 3).1, ?_,
          Or.inl ⟨hbig, rfl⟩⟩
        rw [hfb, h]
        show toFixed1 (fbGo q 0 3).1 ++ " " ++ unitsOf 2 = _
        rw [toFixed1_big _ hbig]
        rfl
      · refine ⟨"GB", Or.inr (Or.inr (Or.inr rfl)), jsToString (fbGo q 0 3).1, ?_,
          Or.inl ⟨hbig, rfl⟩⟩
        rw [hfb, h]
        show toFixed1 (fbGo q 0 3).1 ++ " " ++ unitsOf 3 = _
        rw [toFixed1_big _ hbig]
        rfl
    · obtain ⟨sgn, m, d, hd, hsgn, hlen1, hshape⟩ := toFixed1_shape (fbGo q 0 3).1 hbig
      rcases h4 with h | h | h | h
      · refine ⟨"B", Or.inl rfl, toString (jsRound (fbGo q 0 3).1), ?_,
          Or.inr ⟨hbig, Or.inl ⟨rfl, jsRound (fbGo q 0 3).1, rfl⟩⟩⟩
        rw [hfb, h]
        show toFixed0 (fbGo q 0 3).1 ++ " " ++ unitsOf 0 = _
        rw [toFixed0_small _ hbig]
        rfl
      · refine ⟨"KB", Or.inr (Or.inl rfl), toFixed1 (fbGo q 0 3).1, ?_,
          Or.inr ⟨hbig, Or.inr ⟨by decide, sgn, m, d, hd, hsgn, hlen1, hshape⟩⟩⟩
        rw [hfb, h]
        rfl
      · refine ⟨"MB", Or.inr (Or.inr (Or.inl rfl)), toFixed1 (fbGo q 0 3).1, ?_,
          Or.inr ⟨hbig, Or.inr ⟨by decide, sgn, m, d, hd, hsgn, hlen1, hshape⟩⟩⟩
        rw [hfb, h]
        rfl
      · refine ⟨"GB", Or.inr (Or.inr (Or.inr rfl)), toFixed1 (fbGo q 0 3).1, ?_,
          Or.inr ⟨hbig, Or.inr ⟨by decide, sgn, m, d, hd, hsgn, hlen1, hshape⟩⟩⟩
        rw [hfb, h]
        rfl

/-- Witness for the formatter shape at concrete inputs. -/
theorem formatBytes_total_shape_witness :
    formatBytes JSNum.nan = "" ∧ (fbGo ((4194304 : Nat) : ℚ) 0 3).2 ≤ 3 :=
  ⟨(formatBytes_total_shape JSNum.nan).1 rfl,
   ((formatBytes_total_shape (JSNum.finite ((4194304 : Nat) : ℚ))).2
      ((4194304 : Nat) : ℚ) rfl).1⟩
